import Mathlib

/-!
Verification of the Voice Banking System: a shallow embedding of the
OTP-gated transfer workflow and the frontend handlers, with theorems about
the transfer state machine, the OTP forms and the session storage.

The repository sources under the frontend directory are embedded directly.
The backend workflow (initiate / verify / cancel, OTP issuing, command
interpretation) is not part of the provided sources, so those operations
are modelled from the specification; each such definition carries a doc
comment saying so.
-/

namespace VoiceBanking

/-- JavaScript truthiness of an optional string: null and the empty string
are falsy, any other string is truthy. -/
def jsTruthy : Option String → Bool
  | none => false
  | some s => !(s == "")

/-- The value an HTML text input holds when the user types `typed` into an
input with a maxLength of `n`: the browser caps the value at `n` characters. -/
def jsTake (n : Nat) (s : String) : String := String.mk (s.data.take n)

/- ------------------------------------------------------------------
authService (services/authService.js): login stores the token and username
in localStorage only when the response carries access_token; logout removes
both keys; isAuthenticated is double-negated getItem of the token key.
------------------------------------------------------------------ -/

/-- The two localStorage keys the auth service uses. -/
structure LocalStorage where
  token : Option String
  username : Option String
deriving DecidableEq, Repr

/-- The shape of the login response body as far as the client reads it. -/
structure LoginResponse where
  access_token : Option String
deriving DecidableEq, Repr

/-- authService.login: setItem of token and username, guarded by the
truthiness of response.data.access_token. -/
def login (ls : LocalStorage) (resp : LoginResponse) (uname : String) : LocalStorage :=
  if jsTruthy resp.access_token then
    { ls with token := resp.access_token, username := some uname }
  else ls

/-- authService.logout: removeItem of both keys. -/
def logout (_ls : LocalStorage) : LocalStorage :=
  { token := none, username := none }

/-- authService.isAuthenticated: double negation of getItem of the token key. -/
def isAuthenticated (ls : LocalStorage) : Bool := jsTruthy ls.token

/- ------------------------------------------------------------------
OTP entry forms (FundTransfer.jsx and VoiceCommand): the change handler
strips non-digits from the capped input value; the submit handler refuses
values whose length is not 6 without calling the endpoint.
------------------------------------------------------------------ -/

/-- The onChange handler of both OTP inputs: the input has maxLength 6, and
the handler replaces every non-digit character with nothing. -/
def otpInputChange (typed : String) : String :=
  String.mk ((jsTake 6 typed).data.filter Char.isDigit)

/-- Outcome of submitting the OTP form: either a client-side rejection that
sets otpError, or a call to the verification endpoint with the value. -/
inductive OTPSubmitOutcome
  | rejected (err : String)
  | submitted (otp : String)
deriving DecidableEq, Repr

/-- handleOTPSubmit of both forms: when otpValue.length is not 6, set the
error message and return without calling the endpoint; otherwise call the
verification endpoint with the value. -/
def handleOTPSubmit (otpValue : String) : OTPSubmitOutcome :=
  if otpValue.length ≠ 6 then .rejected ("OTP must be 6 digits")
  else .submitted otpValue

/- ------------------------------------------------------------------
Recipient account input (FundTransfer.jsx handleChange): the input has
maxLength 13, and the handler calls validateAccount exactly when the value
has length 13, clearing validAccount otherwise.
------------------------------------------------------------------ -/

/-- handleChange for the recipient_account field: returns the new form value
together with the account number sent to validateAccount, when one is sent. -/
def recipientAccountChange (typed : String) : String × Option String :=
  let value := jsTake 13 typed
  if value.length = 13 then (value, some value) else (value, none)

/-- Modelled from the spec: the account-number format used by the entity
extractor and the UI, a fixed literal three-letter head ACC followed by a
numeric tail, 13 characters in total (the backend extractor is not among
the provided sources; the literal ACC is the one shown by the UI
placeholder ACC1234567890). -/
def isAccountNumberFormat (s : String) : Bool :=
  decide (s.length = 13) && decide (s.data.take 3 = ['A', 'C', 'C'])
    && (s.data.drop 3).all Char.isDigit

/- ------------------------------------------------------------------
Voice response envelope and the dashboard handler for unknown commands
(Dashboard.jsx handleVoiceCommandProcessed).
------------------------------------------------------------------ -/

/-- The response envelope as far as the unknown branch reads it. -/
structure VoiceResponse where
  action : String
  message : String
  suggestions : Option (List String)
deriving DecidableEq, Repr

/-- Modelled from the spec: the example commands returned as suggestions
when no parsing rule matches (the command interpreter is not among the
provided sources; the examples are the ones the UI help cards list). -/
def exampleCommands : List String :=
  ["check balance", "transfer 100 to ACC1234567890", "show last 5 transactions", "help"]

/-- Modelled from the spec: the interpreter result when no parsing rule
matches a transcript, an unknown action whose message quotes the literal
transcript and whose suggestions list the example commands. -/
def unknownResponse (transcript : String) : VoiceResponse :=
  { action := "unknown"
    message := "Sorry, I could not understand the command: " ++ transcript
      ++ ". Please try one of the suggested commands."
    suggestions := some exampleCommands }

/-- Dashboard.jsx handleVoiceCommandProcessed, unknown branch: setError of
a cross mark and the message, then, when the suggestions field is present,
append the suggestions joined by a comma and a space. -/
def dashboardErrorText (r : VoiceResponse) : String :=
  match r.suggestions with
  | some l => "❌ " ++ r.message ++ "\n\nSuggestions: " ++ String.intercalate (", ") l
  | none => "❌ " ++ r.message

/- ------------------------------------------------------------------
Transfer workflow state machine and OTP issuer. The backend is not among
the provided sources; these definitions are modelled from the
specification (component design 4.4 and 4.5 and the data model).
------------------------------------------------------------------ -/

/-- Modelled from the spec: the states of the transfer workflow state
machine; Verified, Expired, Cancelled and Failed are terminal. -/
inductive TransferStatus
  | created
  | awaitingOTP
  | verified
  | expired
  | cancelled
  | failed
deriving DecidableEq, Repr

/-- Whether a workflow state is terminal. -/
def TransferStatus.isTerminal : TransferStatus → Bool
  | .verified => true
  | .expired => true
  | .cancelled => true
  | .failed => true
  | .created => false
  | .awaitingOTP => false

/-- Modelled from the spec: the PendingTransfer record staged by initiate
and owned by the workflow until a terminal state. Amounts are in whole
currency units. -/
structure PendingTransfer where
  transaction_id : String
  sender_account : String
  recipient_account : String
  recipient_name : String
  amount : Nat
  description : String
  otp_code : String
  otp_expires_at : Nat
  attempts_used : Nat
  status : TransferStatus
deriving DecidableEq, Repr

/-- The two kinds of ledger record. -/
inductive TxType
  | credit
  | debit
deriving DecidableEq, Repr

/-- Modelled from the spec: an append-only ledger record. -/
structure Transaction where
  ttype : TxType
  amount : Nat
  account : String
  counterparty : String
  description : String
deriving DecidableEq, Repr

/-- Modelled from the spec: the durable store the workflow touches, account
balances, pending transfers keyed by transaction id, and the ledger. -/
structure BankState where
  balances : String → Nat
  pending : String → Option PendingTransfer
  ledger : List Transaction

/-- Modelled from the spec: the configured maximum number of OTP attempts. -/
def maxOTPAttempts : Nat := 3

/-- Modelled from the spec: the fixed OTP expiry window, five minutes,
in seconds. -/
def otpExpirySeconds : Nat := 5 * 60

/-- Modelled from the spec: the OTP issuer generates a fixed-length numeric
code of six digits from a random seed (the randomness source is abstracted
as the seed argument). -/
def generateOTP (seed : Nat) : String :=
  let n := seed % 1000000
  String.mk [Nat.digitChar (n / 100000 % 10), Nat.digitChar (n / 10000 % 10),
    Nat.digitChar (n / 1000 % 10), Nat.digitChar (n / 100 % 10),
    Nat.digitChar (n / 10 % 10), Nat.digitChar (n % 10)]

/-- Store an updated pending transfer under its transaction id. -/
def setPending (st : BankState) (tid : String) (pt : PendingTransfer) : BankState :=
  { st with pending := fun t => if t = tid then some pt else st.pending t }

/-- Modelled from the spec: validation failures of initiate. -/
inductive InitiateError
  | invalidRecipient
  | nonPositiveAmount
  | selfTransfer
  | insufficientFunds
deriving DecidableEq, Repr

/-- The data object echoed back by a successful initiate. -/
structure TransferData where
  amount : Nat
  recipient : String
  recipient_account : String
deriving DecidableEq, Repr

/-- The response of a successful initiate. -/
structure InitiateResponse where
  requires_otp : Bool
  transaction_id : String
  message : String
  data : TransferData
deriving DecidableEq, Repr

/-- The PendingTransfer a successful initiate stages: state AwaitingOTP, a
fresh OTP, expiry five minutes from issuance, no attempts used. -/
def stagedTransfer (sender racct rname : String) (amount : Nat) (descr tid : String)
    (otpSeed now : Nat) : PendingTransfer :=
  { transaction_id := tid
    sender_account := sender
    recipient_account := racct
    recipient_name := rname
    amount := amount
    description := descr
    otp_code := generateOTP otpSeed
    otp_expires_at := now + otpExpirySeconds
    attempts_used := 0
    status := .awaitingOTP }

/-- Modelled from the spec: initiate resolves the recipient, validates the
amount as positive and within the sender balance and the transfer as not a
self transfer, then stages a PendingTransfer in state AwaitingOTP carrying
a fresh OTP that expires five minutes from now, moving no funds. On
validation failure nothing is staged. Recipient resolution is abstracted
as the validRecipient flag and the resolved name and account. -/
def initiate (st : BankState) (sender racct rname : String) (validRecipient : Bool)
    (amount : Nat) (descr tid : String) (otpSeed now : Nat) :
    BankState × Except InitiateError InitiateResponse :=
  if !validRecipient then (st, .error .invalidRecipient)
  else if amount = 0 then (st, .error .nonPositiveAmount)
  else if sender = racct then (st, .error .selfTransfer)
  else if st.balances sender < amount then (st, .error .insufficientFunds)
  else
    (setPending st tid (stagedTransfer sender racct rname amount descr tid otpSeed now),
     .ok { requires_otp := true
           transaction_id := tid
           message := "OTP sent to your registered email"
           data := { amount := amount, recipient := rname, recipient_account := racct } })

/-- Modelled from the spec: rejection reasons of verify. -/
inductive VerifyError
  | notFound
  | alreadyCompleted
  | terminalState
  | otpExpired
  | otpMismatch (retriesLeft : Nat)
  | otpAttemptsExhausted
  | insufficientFunds
deriving DecidableEq, Repr

/-- The debit ledger record a committed transfer appends. -/
def debitRecord (pt : PendingTransfer) : Transaction :=
  { ttype := .debit, amount := pt.amount, account := pt.sender_account,
    counterparty := pt.recipient_account, description := pt.description }

/-- The credit ledger record a committed transfer appends. -/
def creditRecord (pt : PendingTransfer) : Transaction :=
  { ttype := .credit, amount := pt.amount, account := pt.recipient_account,
    counterparty := pt.sender_account, description := pt.description }

/-- Modelled from the spec: the atomic commit of a matched transfer, the
debit of the sender and credit of the recipient, the paired ledger records,
and the transition to Verified. -/
def applyCommit (st : BankState) (tid : String) (pt : PendingTransfer) : BankState :=
  { balances := fun a =>
      if a = pt.sender_account then st.balances pt.sender_account - pt.amount
      else if a = pt.recipient_account then st.balances pt.recipient_account + pt.amount
      else st.balances a
    pending := fun t =>
      if t = tid then some { pt with status := .verified } else st.pending t
    ledger := st.ledger ++ [debitRecord pt, creditRecord pt] }

/-- Modelled from the spec: verify rejects a missing or terminal record
(an exhausted record keeps failing with the exhausted reason, a Verified
one with the already-completed reason); a record past its expiry moves to
Expired and fails with the expiry reason regardless of the code; a
mismatching code raises attempts_used, moving to Failed on the configured
maximum; a matching code re-validates the sender balance and commits,
returning the new sender balance. -/
def verify (st : BankState) (tid code : String) (now : Nat) :
    BankState × Except VerifyError Nat :=
  match st.pending tid with
  | none => (st, .error .notFound)
  | some pt =>
    if pt.status = .verified then (st, .error .alreadyCompleted)
    else if pt.status = .failed ∧ maxOTPAttempts ≤ pt.attempts_used then
      (st, .error .otpAttemptsExhausted)
    else if pt.status.isTerminal then (st, .error .terminalState)
    else if pt.otp_expires_at < now then
      (setPending st tid { pt with status := .expired }, .error .otpExpired)
    else if code ≠ pt.otp_code then
      let a := pt.attempts_used + 1
      if maxOTPAttempts ≤ a then
        (setPending st tid { pt with attempts_used := a, status := .failed },
         .error .otpAttemptsExhausted)
      else
        (setPending st tid { pt with attempts_used := a },
         .error (.otpMismatch (maxOTPAttempts - a)))
    else if st.balances pt.sender_account < pt.amount then
      (st, .error .insufficientFunds)
    else
      (applyCommit st tid pt, .ok (st.balances pt.sender_account - pt.amount))

/-- Modelled from the spec: cancel moves a live transfer from AwaitingOTP
to Cancelled and is a no-op success on a terminal or missing record. The
Boolean is the success flag, always true. -/
def cancel (st : BankState) (tid : String) : BankState × Bool :=
  match st.pending tid with
  | none => (st, true)
  | some pt =>
    if pt.status.isTerminal then (st, true)
    else (setPending st tid { pt with status := .cancelled }, true)

/-- The attempt-count invariant of the store: every pending record is
within the attempt limit, and a record that has reached the limit is in
the Failed state. -/
def AttemptsInv (st : BankState) : Prop :=
  ∀ tid pt, st.pending tid = some pt →
    pt.attempts_used ≤ maxOTPAttempts ∧
    (pt.attempts_used = maxOTPAttempts → pt.status = .failed)

/- ------------------------------------------------------------------
Concrete sample data used by the witnesses.
------------------------------------------------------------------ -/

/-- A concrete staged transfer: 100 from account S to account R, OTP
123456, issued at time 0 and so expiring at 300. -/
def demoPT : PendingTransfer :=
  { transaction_id := "t1"
    sender_account := "S"
    recipient_account := "R"
    recipient_name := "bob"
    amount := 100
    description := "rent"
    otp_code := "123456"
    otp_expires_at := 300
    attempts_used := 0
    status := .awaitingOTP }

/-- A concrete store with no pending transfer, sender balance 500 and
recipient balance 10. -/
def demoState0 : BankState :=
  { balances := fun a => if a = "S" then 500 else if a = "R" then 10 else 0
    pending := fun _ => none
    ledger := [] }

/-- The concrete store holding the staged transfer. -/
def demoState : BankState :=
  { balances := fun a => if a = "S" then 500 else if a = "R" then 10 else 0
    pending := fun t => if t = "t1" then some demoPT else none
    ledger := [] }

/-- The staged transfer after its three attempts are exhausted. -/
def demoPTFailed : PendingTransfer :=
  { demoPT with attempts_used := 3, status := .failed }

/-- The concrete store holding the exhausted transfer. -/
def demoStateF : BankState :=
  { balances := fun a => if a = "S" then 500 else if a = "R" then 10 else 0
    pending := fun t => if t = "t1" then some demoPTFailed else none
    ledger := [] }

/- ------------------------------------------------------------------
Theorems
------------------------------------------------------------------ -/

/-- C6: the OTP verification endpoint takes a six-digit code: the issuer
generates a fixed-length six-digit numeric code, and both OTP entry forms
submit to the verification endpoint exactly when the entered code has six
characters, otherwise setting the six-digit error without calling it. -/
theorem c6_otp_six_digit_gate :
    (∀ v : String, v.length ≠ 6 →
      handleOTPSubmit v = .rejected ("OTP must be 6 digits")) ∧
    (∀ v : String, v.length = 6 → handleOTPSubmit v = .submitted v) ∧
    (∀ seed : Nat, (generateOTP seed).length = 6 ∧
      (generateOTP seed).data.all Char.isDigit = true) := by
  have hdigit : ∀ d, d < 10 → (Nat.digitChar d).isDigit = true := by decide
  refine ⟨?_, ?_, ?_⟩
  · intro v h
    simp [handleOTPSubmit, h]
  · intro v h
    simp [handleOTPSubmit, h]
  · intro seed
    refine ⟨rfl, ?_⟩
    simp only [generateOTP, String.data, List.all_cons, List.all_nil, Bool.and_eq_true]
    have h10 : (0 : Nat) < 10 := by norm_num
    exact ⟨hdigit _ (Nat.mod_lt _ h10), hdigit _ (Nat.mod_lt _ h10),
      hdigit _ (Nat.mod_lt _ h10), hdigit _ (Nat.mod_lt _ h10),
      hdigit _ (Nat.mod_lt _ h10), ⟨hdigit _ (Nat.mod_lt _ h10), trivial⟩⟩

/-- C6 witness at concrete inputs. -/
theorem c6_otp_six_digit_gate_witness :
    handleOTPSubmit ("12345") = .rejected ("OTP must be 6 digits") ∧
    handleOTPSubmit ("123456") = .submitted ("123456") ∧
    (generateOTP 42).length = 6 ∧ (generateOTP 42).data.all Char.isDigit = true :=
  ⟨c6_otp_six_digit_gate.1 ("12345") (by decide),
   c6_otp_six_digit_gate.2.1 ("123456") (by decide),
   (c6_otp_six_digit_gate.2.2 42).1, (c6_otp_six_digit_gate.2.2 42).2⟩

/-- C9: the otpValue state of both OTP forms is always at most six
characters and all digits, because the input caps the value at six
characters and the change handler strips non-digits; hence any OTP the
client submits to the verification endpoint is exactly six digits. -/
theorem c9_otp_value_always_digits (typed : String) :
    (otpInputChange typed).length ≤ 6 ∧
    (otpInputChange typed).data.all Char.isDigit = true ∧
    (∀ otp, handleOTPSubmit (otpInputChange typed) = .submitted otp →
      otp.length = 6 ∧ otp.data.all Char.isDigit = true) := by
  have hlen : (otpInputChange typed).length ≤ 6 := by
    show ((typed.data.take 6).filter Char.isDigit).length ≤ 6
    exact le_trans (List.length_filter_le _ _) (by simp)
  have hall : (otpInputChange typed).data.all Char.isDigit = true := by
    show ((typed.data.take 6).filter Char.isDigit).all Char.isDigit = true
    rw [List.all_eq_true]
    intro x hx
    exact (List.mem_filter.1 hx).2
  refine ⟨hlen, hall, ?_⟩
  intro otp h
  by_cases h6 : (otpInputChange typed).length = 6
  · have : otpInputChange typed = otp := by
      simpa [handleOTPSubmit, h6, OTPSubmitOutcome.submitted.injEq] using h
    exact ⟨this ▸ h6, this ▸ hall⟩
  · simp [handleOTPSubmit, h6] at h

/-- C9 witness at a concrete typed value whose first six characters are
digits. -/
theorem c9_otp_value_always_digits_witness :
    (otpInputChange ("9876549z")).length ≤ 6 ∧
    (otpInputChange ("9876549z")).data.all Char.isDigit = true ∧
    (("987654" : String).length = 6 ∧
      ("987654" : String).data.all Char.isDigit = true) := by
  obtain ⟨h1, h2, h3⟩ := c9_otp_value_always_digits ("9876549z")
  exact ⟨h1, h2, h3 ("987654") (by decide)⟩

/-- C7: account numbers have the fixed three-letter head ACC and a numeric
tail with total length exactly 13, and the UI input caps the entered value
at 13 characters and triggers account validation exactly when the value
reaches length 13, validating the entered value itself. -/
theorem c7_account_number_thirteen :
    (∀ s, isAccountNumberFormat s = true →
      s.length = 13 ∧ s.data.take 3 = ['A', 'C', 'C']) ∧
    isAccountNumberFormat ("ACC1234567890") = true ∧
    (∀ typed, ((recipientAccountChange typed).1).length ≤ 13) ∧
    (∀ typed, (recipientAccountChange typed).2 =
      if ((recipientAccountChange typed).1).length = 13
      then some (recipientAccountChange typed).1 else none) := by
  have hfst : ∀ typed, (recipientAccountChange typed).1 = jsTake 13 typed := by
    intro typed
    by_cases h : (jsTake 13 typed).length = 13 <;> simp [recipientAccountChange, h]
  refine ⟨?_, by decide, ?_, ?_⟩
  · intro s h
    simp only [isAccountNumberFormat, Bool.and_eq_true, decide_eq_true_eq] at h
    exact ⟨h.1.1, h.1.2⟩
  · intro typed
    rw [hfst]
    show (typed.data.take 13).length ≤ 13
    simp
  · intro typed
    by_cases h : (jsTake 13 typed).length = 13 <;>
      simp [recipientAccountChange, hfst, h]

/-- C7 witness at the placeholder account number. -/
theorem c7_account_number_thirteen_witness :
    (("ACC1234567890" : String).length = 13 ∧
      ("ACC1234567890" : String).data.take 3 = ['A', 'C', 'C']) ∧
    isAccountNumberFormat ("ACC1234567890") = true ∧
    ((recipientAccountChange ("ACC1234567890XYZ")).1).length ≤ 13 ∧
    (recipientAccountChange ("ACC1234567890")).2 = some ("ACC1234567890") := by
  obtain ⟨h1, h2, h3, h4⟩ := c7_account_number_thirteen
  refine ⟨h1 _ h2, h2, h3 _, ?_⟩
  rw [h4 ("ACC1234567890")]
  decide

/-- C8: a transcript matched by no parsing rule yields the unknown action
with a message containing the literal transcript and a non-empty list of
example-command suggestions, and the dashboard renders the message and
appends the suggestions joined by a comma and a space. -/
theorem c8_unknown_suggestions (transcript : String) :
    (unknownResponse transcript).action = "unknown" ∧
    (∃ pre post, (unknownResponse transcript).message = pre ++ transcript ++ post) ∧
    (unknownResponse transcript).suggestions = some exampleCommands ∧
    exampleCommands ≠ [] ∧
    (∀ r l, r.suggestions = some l → dashboardErrorText r =
      "❌ " ++ r.message ++ "\n\nSuggestions: " ++ String.intercalate (", ") l) ∧
    dashboardErrorText (unknownResponse transcript) =
      "❌ " ++ (unknownResponse transcript).message ++ "\n\nSuggestions: "
        ++ String.intercalate (", ") exampleCommands := by
  refine ⟨rfl, ?_, rfl, by decide, ?_, rfl⟩
  · exact ⟨"Sorry, I could not understand the command: ",
      ". Please try one of the suggested commands.", rfl⟩
  · intro r l h
    cases r with
    | mk action message suggestions =>
      cases h
      rfl

/-- C8 witness at a concrete transcript. -/
theorem c8_unknown_suggestions_witness :
    (unknownResponse ("play some music")).action = "unknown" ∧
    (∃ pre post,
      (unknownResponse ("play some music")).message = pre ++ "play some music" ++ post) ∧
    (unknownResponse ("play some music")).suggestions = some exampleCommands ∧
    dashboardErrorText { action := "unknown", message := "m", suggestions := some ["a", "b"] } =
      "❌ " ++ "m" ++ "\n\nSuggestions: " ++ String.intercalate (", ") ["a", "b"] := by
  obtain ⟨h1, h2, h3, _, h5, _⟩ := c8_unknown_suggestions ("play some music")
  exact ⟨h1, h2, h3, h5 _ _ rfl⟩

/-- C10: login stores the token and username only when the response
carries a truthy access_token; on a stored state whose token is not the
empty string, isAuthenticated is true exactly when a token is stored, and
both login and logout preserve that the stored token is never the empty
string; after logout, isAuthenticated is always false. -/
theorem c10_auth_token_roundtrip :
    (∀ ls resp u, jsTruthy resp.access_token = false → login ls resp u = ls) ∧
    (∀ ls resp u t, resp.access_token = some t → t ≠ "" →
      (login ls resp u).token = some t ∧ (login ls resp u).username = some u) ∧
    (∀ ls : LocalStorage, ls.token ≠ some "" →
      (isAuthenticated ls = true ↔ (ls.token).isSome = true)) ∧
    (∀ ls resp u, ls.token ≠ some "" → (login ls resp u).token ≠ some "") ∧
    (∀ ls, (logout ls).token ≠ some "") ∧
    (∀ ls, isAuthenticated (logout ls) = false) := by
  refine ⟨?_, ?_, ?_, ?_, ?_, ?_⟩
  · intro ls resp u h
    simp [login, h]
  · intro ls resp u t ht hne
    simp [login, jsTruthy, ht, hne]
  · intro ls h
    cases htok : ls.token with
    | none => simp [isAuthenticated, jsTruthy, htok]
    | some t =>
      have : t ≠ "" := fun he => h (by rw [htok, he])
      simp [isAuthenticated, jsTruthy, htok, this]
  · intro ls resp u h
    cases ht : resp.access_token with
    | none =>
      simp [login, jsTruthy, ht]
      exact h
    | some t =>
      by_cases hne : t = ""
      · subst hne
        simp [login, jsTruthy, ht]
        exact h
      · simp [login, jsTruthy, ht, hne]
  · intro ls
    simp [logout]
  · intro ls
    simp [isAuthenticated, logout, jsTruthy]

/-- C10 witness at concrete storage states and responses. -/
theorem c10_auth_token_roundtrip_witness :
    login { token := none, username := none } { access_token := none } ("alice") =
      { token := none, username := none } ∧
    ((login { token := none, username := none } { access_token := some ("tok1") }
        ("alice")).token = some ("tok1") ∧
      (login { token := none, username := none } { access_token := some ("tok1") }
        ("alice")).username = some ("alice")) ∧
    (isAuthenticated { token := some ("tok1"), username := some ("alice") } = true ↔
      (some ("tok1") : Option String).isSome = true) ∧
    isAuthenticated (logout { token := some ("tok1"), username := some ("alice") }) = false := by
  obtain ⟨h1, h2, h3, _, _, h6⟩ := c10_auth_token_roundtrip
  exact ⟨h1 _ _ _ (by decide), h2 _ _ _ _ rfl (by decide), h3 _ (by decide), h6 _⟩

/-- C5: cancel moves a pending transfer from AwaitingOTP to Cancelled only
when it is not already terminal, leaves a terminal transfer untouched, and
is an idempotent no-op success: cancel composed with cancel equals a
single cancel. -/
theorem c5_cancel_idempotent (st : BankState) (tid : String) :
    (cancel st tid).2 = true ∧
    cancel (cancel st tid).1 tid = cancel st tid ∧
    (∀ pt, st.pending tid = some pt → pt.status.isTerminal = false →
      ((cancel st tid).1).pending tid = some { pt with status := .cancelled }) ∧
    (∀ pt, st.pending tid = some pt → pt.status.isTerminal = true →
      (cancel st tid).1 = st) := by
  cases h : st.pending tid with
  | none =>
    refine ⟨by simp [cancel, h], by simp [cancel, h], ?_, ?_⟩ <;>
      (intro pt hp _; cases hp)
  | some pt =>
    by_cases ht : pt.status.isTerminal = true
    · refine ⟨by simp [cancel, h, ht], by simp [cancel, h, ht], ?_, ?_⟩
      · intro pt' hp hterm
        injection hp with hpp
        subst hpp
        rw [hterm] at ht
        cases ht
      · intro pt' hp _
        simp [cancel, h, ht]
    · have ht' : pt.status.isTerminal = false := by
        cases hb : pt.status.isTerminal
        · rfl
        · exact absurd hb ht
      have h1 : cancel st tid = (setPending st tid { pt with status := .cancelled }, true) := by
        simp [cancel, h, ht']
      have hp2 : (setPending st tid { pt with status := .cancelled }).pending tid
          = some { pt with status := .cancelled } := by
        simp [setPending]
      refine ⟨by rw [h1], ?_, ?_, ?_⟩
      · rw [h1]
        simp [cancel, hp2, TransferStatus.isTerminal]
      · intro pt' hp _
        injection hp with hpp
        subst hpp
        rw [h1]
        exact hp2
      · intro pt' hp hterm
        injection hp with hpp
        subst hpp
        rw [hterm] at ht'
        cases ht'

/-- C5 witness: cancelling the concrete staged transfer, twice. -/
theorem c5_cancel_idempotent_witness :
    (cancel demoState "t1").2 = true ∧
    cancel (cancel demoState "t1").1 "t1" = cancel demoState "t1" ∧
    ((cancel demoState "t1").1).pending "t1" = some { demoPT with status := .cancelled } ∧
    (cancel demoStateF "t1").1 = demoStateF := by
  obtain ⟨h1, h2, h3, _⟩ := c5_cancel_idempotent demoState "t1"
  obtain ⟨_, _, _, h4⟩ := c5_cancel_idempotent demoStateF "t1"
  exact ⟨h1, h2, h3 demoPT (by decide) rfl, h4 demoPTFailed (by decide) rfl⟩

/-- C4: the OTP expiry window is fixed at five minutes from issuance, and
a verify call made after otp_expires_at has passed fails with the expiry
reason and moves the record to Expired, regardless of the submitted
code. -/
theorem c4_otp_expiry :
    otpExpirySeconds = 5 * 60 ∧
    (∀ st : BankState, ∀ sender racct rname descr tid : String, ∀ amount seed now : Nat,
      amount ≠ 0 → sender ≠ racct → ¬ st.balances sender < amount →
      ((initiate st sender racct rname true amount descr tid seed now).1).pending tid
          = some (stagedTransfer sender racct rname amount descr tid seed now) ∧
      (stagedTransfer sender racct rname amount descr tid seed now).otp_expires_at
          = now + otpExpirySeconds) ∧
    (∀ st : BankState, ∀ tid code : String, ∀ pt : PendingTransfer, ∀ now : Nat,
      st.pending tid = some pt → pt.status = .awaitingOTP → pt.otp_expires_at < now →
      (verify st tid code now).2 = .error .otpExpired ∧
      ((verify st tid code now).1).pending tid = some { pt with status := .expired }) := by
  refine ⟨rfl, ?_, ?_⟩
  · intro st sender racct rname descr tid amount seed now h1 h2 h3
    refine ⟨?_, rfl⟩
    simp [initiate, h1, h2, h3, setPending]
  · intro st tid code pt now hp hs hexp
    constructor <;>
      simp [verify, hp, hs, TransferStatus.isTerminal, hexp, setPending]

/-- C4 witness: the concrete staged transfer expires at 300, and verifying
at time 1000 with the correct code still fails as expired. -/
theorem c4_otp_expiry_witness :
    otpExpirySeconds = 5 * 60 ∧
    ((initiate demoState0 "S" "R" "bob" true 100 "rent" "t1" 42 0).1).pending "t1"
        = some (stagedTransfer "S" "R" "bob" 100 "rent" "t1" 42 0) ∧
    (stagedTransfer "S" "R" "bob" 100 "rent" "t1" 42 0).otp_expires_at
        = 0 + otpExpirySeconds ∧
    (verify demoState "t1" "123456" 1000).2 = .error .otpExpired ∧
    ((verify demoState "t1" "123456" 1000).1).pending "t1"
        = some { demoPT with status := .expired } := by
  obtain ⟨h0, h1, h2⟩ := c4_otp_expiry
  obtain ⟨ha, hb⟩ := h1 demoState0 "S" "R" "bob" "rent" "t1" 100 42 0
    (by decide) (by decide) (by decide)
  obtain ⟨hc, hd⟩ := h2 demoState "t1" "123456" demoPT 1000 (by decide) rfl (by decide)
  exact ⟨h0, ha, hb, hc, hd⟩

/-- C2: a successful initiate returns requires_otp true, the transaction
id and a data object carrying the amount, recipient and recipient account,
and moves no funds: balances and ledger are unchanged, and only a
subsequent successful verify debits the sender by the amount. -/
theorem c2_initiate_moves_no_funds (st : BankState) (sender racct rname descr tid : String)
    (amount otpSeed now : Nat)
    (hpos : 0 < amount) (hbal : amount ≤ st.balances sender) (hne : sender ≠ racct) :
    ∃ st2 resp,
      initiate st sender racct rname true amount descr tid otpSeed now = (st2, .ok resp) ∧
      resp.requires_otp = true ∧
      resp.transaction_id = tid ∧
      resp.data = { amount := amount, recipient := rname, recipient_account := racct } ∧
      (∀ a, st2.balances a = st.balances a) ∧
      st2.ledger = st.ledger ∧
      (∀ now2, ¬ now + otpExpirySeconds < now2 →
        (verify st2 tid (generateOTP otpSeed) now2).2
            = .ok (st.balances sender - amount) ∧
        ((verify st2 tid (generateOTP otpSeed) now2).1).balances sender
            = st.balances sender - amount) := by
  have h0 : amount ≠ 0 := Nat.pos_iff_ne_zero.mp hpos
  have hlt : ¬ st.balances sender < amount := not_lt.mpr hbal
  refine ⟨setPending st tid (stagedTransfer sender racct rname amount descr tid otpSeed now),
    { requires_otp := true
      transaction_id := tid
      message := "OTP sent to your registered email"
      data := { amount := amount, recipient := rname, recipient_account := racct } },
    ?_, rfl, rfl, rfl, fun _ => rfl, rfl, ?_⟩
  · simp [initiate, h0, hne, hlt]
  · intro now2 hnow
    have hpend : (setPending st tid
        (stagedTransfer sender racct rname amount descr tid otpSeed now)).pending tid
        = some (stagedTransfer sender racct rname amount descr tid otpSeed now) := by
      simp [setPending]
    constructor <;>
      simp [verify, hpend, stagedTransfer, TransferStatus.isTerminal, hnow, hlt,
        setPending, applyCommit]

/-- C2 witness: the spec scenario, a 100 transfer staged against a balance
of 500 leaves the balance at 500 until verify, after which it is 400. -/
theorem c2_initiate_moves_no_funds_witness :
    (∃ st2 resp,
      initiate demoState0 "S" "R" "bob" true 100 "rent" "t1" 42 0 = (st2, .ok resp) ∧
      resp.requires_otp = true ∧
      resp.transaction_id = "t1" ∧
      resp.data = { amount := 100, recipient := "bob", recipient_account := "R" } ∧
      (∀ a, st2.balances a = demoState0.balances a) ∧
      st2.ledger = demoState0.ledger ∧
      (∀ now2, ¬ 0 + otpExpirySeconds < now2 →
        (verify st2 "t1" (generateOTP 42) now2).2
            = .ok (demoState0.balances "S" - 100) ∧
        ((verify st2 "t1" (generateOTP 42) now2).1).balances "S"
            = demoState0.balances "S" - 100)) ∧
    demoState0.balances "S" = 500 ∧
    demoState0.balances "S" - 100 = 400 :=
  ⟨c2_initiate_moves_no_funds demoState0 "S" "R" "bob" "rent" "t1" 100 42 0
      (by decide) (by decide) (by decide),
    by decide, by decide⟩

/-- C1: verifying a pending transfer with the correct code before expiry
and within the attempt limit commits exactly once: the record moves to
Verified, the sender is debited and the recipient credited by exactly the
staged amount, one debit and one credit ledger record are appended, the
new sender balance is returned, and any further verify call answers
already-completed without changing the store. -/
theorem c1_verify_commits_once (st : BankState) (tid : String) (pt : PendingTransfer)
    (now : Nat)
    (hpend : st.pending tid = some pt)
    (hstatus : pt.status = .awaitingOTP)
    (hexp : ¬ pt.otp_expires_at < now)
    (hatt : pt.attempts_used < maxOTPAttempts)
    (hbal : pt.amount ≤ st.balances pt.sender_account)
    (hne : pt.sender_account ≠ pt.recipient_account) :
    ((verify st tid pt.otp_code now).1).pending tid = some { pt with status := .verified } ∧
    ((verify st tid pt.otp_code now).1).balances pt.sender_account
        = st.balances pt.sender_account - pt.amount ∧
    ((verify st tid pt.otp_code now).1).balances pt.recipient_account
        = st.balances pt.recipient_account + pt.amount ∧
    ((verify st tid pt.otp_code now).1).ledger
        = st.ledger ++ [debitRecord pt, creditRecord pt] ∧
    (debitRecord pt).ttype = .debit ∧ (debitRecord pt).amount = pt.amount ∧
    (creditRecord pt).ttype = .credit ∧ (creditRecord pt).amount = pt.amount ∧
    (verify st tid pt.otp_code now).2 = .ok (st.balances pt.sender_account - pt.amount) ∧
    (∀ code2 now2, verify ((verify st tid pt.otp_code now).1) tid code2 now2
        = ((verify st tid pt.otp_code now).1, .error .alreadyCompleted)) := by
  have hlt : ¬ st.balances pt.sender_account < pt.amount := not_lt.mpr hbal
  have hred : verify st tid pt.otp_code now
      = (applyCommit st tid pt, .ok (st.balances pt.sender_account - pt.amount)) := by
    simp [verify, hpend, hstatus, TransferStatus.isTerminal, hexp, hlt]
  rw [hred]
  have hp2 : (applyCommit st tid pt).pending tid = some { pt with status := .verified } := by
    simp [applyCommit]
  refine ⟨hp2, ?_, ?_, rfl, rfl, rfl, rfl, rfl, rfl, ?_⟩
  · simp [applyCommit]
  · simp [applyCommit, Ne.symm hne]
  · intro code2 now2
    simp [verify, hp2]

/-- C1 witness: the concrete staged transfer, verified with its code at
time 10, yields sender balance 400 and recipient balance 110, and a second
verify answers already-completed. -/
theorem c1_verify_commits_once_witness :
    ((verify demoState "t1" demoPT.otp_code 10).1).pending "t1"
        = some { demoPT with status := .verified } ∧
    ((verify demoState "t1" demoPT.otp_code 10).1).balances demoPT.sender_account = 400 ∧
    ((verify demoState "t1" demoPT.otp_code 10).1).balances demoPT.recipient_account = 110 ∧
    ((verify demoState "t1" demoPT.otp_code 10).1).ledger
        = [debitRecord demoPT, creditRecord demoPT] ∧
    (verify demoState "t1" demoPT.otp_code 10).2 = .ok 400 ∧
    (∀ code2 now2, verify ((verify demoState "t1" demoPT.otp_code 10).1) "t1" code2 now2
        = ((verify demoState "t1" demoPT.otp_code 10).1, .error .alreadyCompleted)) := by
  obtain ⟨h1, h2, h3, h4, _, _, _, _, h9, h10⟩ :=
    c1_verify_commits_once demoState "t1" demoPT 10 (by decide) rfl (by decide)
      (by decide) (by decide) (by decide)
  have e1 : demoState.balances demoPT.sender_account - demoPT.amount = 400 := by decide
  have e2 : demoState.balances demoPT.recipient_account + demoPT.amount = 110 := by decide
  have e3 : demoState.ledger ++ [debitRecord demoPT, creditRecord demoPT]
      = [debitRecord demoPT, creditRecord demoPT] := rfl
  exact ⟨h1, by rw [h2, e1], by rw [h3, e2], by rw [h4, e3], by rw [h9, e1], h10⟩

/-- C3: a verify call with an incorrect code increments attempts_used; the
mismatch that reaches the configured maximum of three moves the record to
Failed with the exhausted reason; the attempt invariant, attempts_used
never above three, is established by initiate and preserved by verify; and
once attempts_used has reached three every further verify call fails with
the exhausted reason without changing the store, even with the correct
code. -/
theorem c3_attempts_exhaustion :
    (∀ st : BankState, ∀ tid code : String, ∀ pt : PendingTransfer, ∀ now : Nat,
      st.pending tid = some pt → pt.status = .awaitingOTP → ¬ pt.otp_expires_at < now →
      code ≠ pt.otp_code →
      ∃ pt2, ((verify st tid code now).1).pending tid = some pt2 ∧
        pt2.attempts_used = pt.attempts_used + 1) ∧
    (∀ st : BankState, ∀ tid code : String, ∀ pt : PendingTransfer, ∀ now : Nat,
      st.pending tid = some pt → pt.status = .awaitingOTP → ¬ pt.otp_expires_at < now →
      code ≠ pt.otp_code → maxOTPAttempts ≤ pt.attempts_used + 1 →
      ((verify st tid code now).1).pending tid
          = some { pt with attempts_used := pt.attempts_used + 1, status := .failed } ∧
      (verify st tid code now).2 = .error .otpAttemptsExhausted) ∧
    (∀ st : BankState, ∀ sender racct rname : String, ∀ v : Bool,
      ∀ amount : Nat, ∀ descr tid : String, ∀ seed now : Nat, AttemptsInv st →
      AttemptsInv ((initiate st sender racct rname v amount descr tid seed now).1)) ∧
    (∀ st : BankState, ∀ tid code : String, ∀ now : Nat, AttemptsInv st →
      AttemptsInv ((verify st tid code now).1)) ∧
    (∀ st : BankState, ∀ tid code : String, ∀ pt : PendingTransfer, ∀ now : Nat,
      st.pending tid = some pt → AttemptsInv st → pt.attempts_used = maxOTPAttempts →
      verify st tid code now = (st, .error .otpAttemptsExhausted)) := by
  refine ⟨?_, ?_, ?_, ?_, ?_⟩
  · intro st tid code pt now hp hs hexp hcode
    by_cases hmax : maxOTPAttempts ≤ pt.attempts_used + 1
    · refine ⟨{ pt with attempts_used := pt.attempts_used + 1, status := .failed }, ?_, rfl⟩
      simp [verify, hp, hs, TransferStatus.isTerminal, hexp, hcode, hmax, setPending]
    · refine ⟨{ pt with attempts_used := pt.attempts_used + 1 }, ?_, rfl⟩
      simp [verify, hp, hs, TransferStatus.isTerminal, hexp, hcode, hmax, setPending]
  · intro st tid code pt now hp hs hexp hcode hmax
    constructor <;>
      simp [verify, hp, hs, TransferStatus.isTerminal, hexp, hcode, hmax, setPending]
  · intro st sender racct rname v amount descr tid seed now hinv
    cases v with
    | false => simpa [initiate] using hinv
    | true =>
      by_cases h1 : amount = 0
      · simpa [initiate, h1] using hinv
      by_cases h2 : sender = racct
      · simpa [initiate, h1, h2] using hinv
      by_cases h3 : st.balances sender < amount
      · simpa [initiate, h1, h2, h3] using hinv
      have hst : (initiate st sender racct rname true amount descr tid seed now).1
          = setPending st tid (stagedTransfer sender racct rname amount descr tid seed now) := by
        simp [initiate, h1, h2, h3]
      rw [hst]
      intro tid' pt' hp'
      simp only [setPending] at hp'
      rcases eq_or_ne tid' tid with ht | ht
      · subst ht
        rw [if_pos rfl] at hp'
        injection hp' with hpp
        subst hpp
        exact ⟨show (0 : Nat) ≤ maxOTPAttempts by decide,
          fun h => absurd (show (0 : Nat) = maxOTPAttempts from h) (by decide)⟩
      · rw [if_neg ht] at hp'
        exact hinv tid' pt' hp'
  · intro st tid code now hinv
    cases hp : st.pending tid with
    | none => simpa [verify, hp] using hinv
    | some pt =>
      by_cases hv : pt.status = .verified
      · simpa [verify, hp, hv] using hinv
      by_cases hf : pt.status = .failed ∧ maxOTPAttempts ≤ pt.attempts_used
      · simpa [verify, hp, hv, hf] using hinv
      by_cases hterm : pt.status.isTerminal = true
      · simpa [verify, hp, hv, hf, hterm] using hinv
      have hne3 : pt.attempts_used ≠ maxOTPAttempts := by
        intro h
        have hfail := (hinv tid pt hp).2 h
        rw [hfail] at hterm
        exact hterm rfl
      have hle : pt.attempts_used ≤ maxOTPAttempts := (hinv tid pt hp).1
      have hlt3 : pt.attempts_used < maxOTPAttempts := lt_of_le_of_ne hle hne3
      by_cases hexp : pt.otp_expires_at < now
      · have hst : (verify st tid code now).1
            = setPending st tid { pt with status := .expired } := by
          simp [verify, hp, hv, hf, hterm, hexp]
        rw [hst]
        intro tid' pt' hp'
        simp only [setPending] at hp'
        rcases eq_or_ne tid' tid with ht | ht
        · subst ht
          rw [if_pos rfl] at hp'
          injection hp' with hpp
          subst hpp
          exact ⟨hle, fun h => absurd h hne3⟩
        · rw [if_neg ht] at hp'
          exact hinv tid' pt' hp'
      by_cases hcode : code = pt.otp_code
      · by_cases hbal : st.balances pt.sender_account < pt.amount
        · simpa [verify, hp, hv, hf, hterm, hexp, hcode, hbal] using hinv
        · have hst : (verify st tid code now).1 = applyCommit st tid pt := by
            simp [verify, hp, hv, hf, hterm, hexp, hcode, hbal]
          rw [hst]
          intro tid' pt' hp'
          simp only [applyCommit] at hp'
          rcases eq_or_ne tid' tid with ht | ht
          · subst ht
            rw [if_pos rfl] at hp'
            injection hp' with hpp
            subst hpp
            exact ⟨hle, fun h => absurd h hne3⟩
          · rw [if_neg ht] at hp'
            exact hinv tid' pt' hp'
      · by_cases hmax : maxOTPAttempts ≤ pt.attempts_used + 1
        · have hst : (verify st tid code now).1 = setPending st tid
              { pt with attempts_used := pt.attempts_used + 1, status := .failed } := by
            simp [verify, hp, hv, hf, hterm, hexp, hcode, hmax]
          rw [hst]
          intro tid' pt' hp'
          simp only [setPending] at hp'
          rcases eq_or_ne tid' tid with ht | ht
          · subst ht
            rw [if_pos rfl] at hp'
            injection hp' with hpp
            subst hpp
            exact ⟨Nat.succ_le_of_lt hlt3, fun _ => rfl⟩
          · rw [if_neg ht] at hp'
            exact hinv tid' pt' hp'
        · have hst : (verify st tid code now).1 = setPending st tid
              { pt with attempts_used := pt.attempts_used + 1 } := by
            simp [verify, hp, hv, hf, hterm, hexp, hcode, hmax]
          rw [hst]
          intro tid' pt' hp'
          simp only [setPending] at hp'
          rcases eq_or_ne tid' tid with ht | ht
          · subst ht
            rw [if_pos rfl] at hp'
            injection hp' with hpp
            subst hpp
            have hlt : pt.attempts_used + 1 < maxOTPAttempts := Nat.lt_of_not_le hmax
            exact ⟨Nat.le_of_lt hlt, fun h => absurd h (Nat.ne_of_lt hlt)⟩
          · rw [if_neg ht] at hp'
            exact hinv tid' pt' hp'
  · intro st tid code pt now hp hinv h3
    have hfail : pt.status = .failed := (hinv tid pt hp).2 h3
    simp [verify, hp, hfail, h3]

/-- C3 witness: a wrong code against the concrete staged transfer raises
attempts_used to one; with attempts exhausted, verifying with the correct
code still fails with the exhausted reason and leaves the store
unchanged. -/
theorem c3_attempts_exhaustion_witness :
    (∃ pt2, ((verify demoState "t1" "000000" 10).1).pending "t1" = some pt2 ∧
      pt2.attempts_used = demoPT.attempts_used + 1) ∧
    verify demoStateF "t1" "123456" 10 = (demoStateF, .error .otpAttemptsExhausted) := by
  obtain ⟨h1, _, _, _, h5⟩ := c3_attempts_exhaustion
  constructor
  · exact h1 demoState "t1" "000000" demoPT 10 (by decide) rfl (by decide) (by decide)
  · refine h5 demoStateF "t1" "123456" demoPTFailed 10 (by decide) ?_ (by decide)
    intro tid pt h
    by_cases ht : tid = "t1"
    · subst ht
      simp only [demoStateF, if_pos rfl] at h
      injection h with hpp
      subst hpp
      exact ⟨by decide, fun _ => rfl⟩
    · simp only [demoStateF, if_neg ht] at h
      cases h

end VoiceBanking
